import Mathlib

/-!
Verification of the discogs-mcp server (`src/server.py`) against its
natural-language specification.

The Python code is shallowly embedded: JSON values are an inductive `Json`
type, Python `dict.get` becomes `pyGet` (which errors on non-dict receivers,
mirroring `AttributeError`), exceptions become `Except Unit`, and each HTTP
call is abstracted as a `FetchOutcome` (transport failure, or a status code
plus the parse result of the body).  `search_records` takes the outcome of
its primary search request plus an oracle giving the outcome of each
per-release community-stats request; `get_release` takes the outcome of its
single release-detail request.  The definitions follow `src/server.py`
line by line; theorems are stated against these definitions.
-/

namespace Discogs

/-- JSON values, as produced by `resp.json()` in the Python code.
Numbers are modelled as integers (every numeric field the code touches is
passed through verbatim, so the distinction between int and float never
matters to the claims). -/
inductive Json where
  | null : Json
  | bool : Bool → Json
  | num : Int → Json
  | str : String → Json
  | arr : List Json → Json
  | obj : List (String × Json) → Json

/-- First-match association-list lookup: Python dict access (dict keys are
unique, so first match is the match). -/
def lookupJ : List (String × Json) → String → Option Json
  | [], _ => none
  | (k', v) :: fs, k => if k' = k then some v else lookupJ fs k

/-- Python `x.get(k, d)`: returns the stored value (or `d`) when `x` is a
dict, and raises `AttributeError` (modelled as `.error ()`) otherwise. -/
def pyGet (x : Json) (k : String) (d : Json) : Except Unit Json :=
  match x with
  | .obj fs => .ok ((lookupJ fs k).getD d)
  | _ => .error ()

/-- Python `for a in x`: lists iterate over elements, strings over their
characters (as one-character strings), dicts over their keys; any other
value raises `TypeError` (modelled as `.error ()`). -/
def pyIter (x : Json) : Except Unit (List Json) :=
  match x with
  | .arr xs => .ok xs
  | .str s => .ok (s.data.map (fun c => .str (String.singleton c)))
  | .obj fs => .ok (fs.map (fun f => .str f.1))
  | _ => .error ()

/-- One ASCII single-quote character, used by the repr rendering below. -/
def squot : String := String.singleton (Char.ofNat 39)

mutual
/-- Python `repr()` of a JSON value (best effort: quote escaping inside
strings is not modelled; no claim depends on this rendering). -/
def pyRepr : Json → String
  | .null => "None"
  | .bool true => "True"
  | .bool false => "False"
  | .num n => toString n
  | .str s => squot ++ s ++ squot
  | .arr xs => "[" ++ pyReprList xs ++ "]"
  | .obj fs => "\x7b" ++ pyReprFields fs ++ "\x7d"

/-- Comma-separated repr of list elements. -/
def pyReprList : List Json → String
  | [] => ""
  | [x] => pyRepr x
  | x :: xs => pyRepr x ++ ", " ++ pyReprList xs

/-- Comma-separated repr of dict entries. -/
def pyReprFields : List (String × Json) → String
  | [] => ""
  | [(k, v)] => squot ++ k ++ squot ++ ": " ++ pyRepr v
  | (k, v) :: fs => squot ++ k ++ squot ++ ": " ++ pyRepr v ++ ", " ++ pyReprFields fs
end

/-- Python `str()` of a JSON value, as evaluated inside the f-string
building the `url` field (line 120 of `server.py`). -/
def pyStr : Json → String
  | .str s => s
  | j => pyRepr j

/-- Exception-propagating sequencing: Python statement order.  `eb e f`
runs `f` on the value of `e` unless `e` raised. -/
def eb (e : Except Unit α) (f : α → Except Unit β) : Except Unit β :=
  match e with
  | .error u => .error u
  | .ok v => f v

/-- Left-to-right effectful map: a Python `for` loop (or comprehension)
that raises out of the enclosing function at the first failing element. -/
def mapE (f : α → Except Unit β) : List α → Except Unit (List β)
  | [] => .ok []
  | x :: xs =>
    match f x with
    | .error u => .error u
    | .ok y =>
      match mapE f xs with
      | .error u => .error u
      | .ok ys => .ok (y :: ys)

/-- Whether an `Except` computation succeeded. -/
def isOkE : Except Unit α → Bool
  | .ok _ => true
  | .error _ => false

/-- Outcome of one outbound HTTP GET: either the transport failed
(connection/DNS error raised by the client), or a response arrived with a
status code and a body whose JSON parse either succeeded or raised. -/
inductive FetchOutcome where
  | transportError : FetchOutcome
  | response (status : Nat) (body : Except Unit Json) : FetchOutcome

/-- httpx `resp.raise_for_status()` passes exactly the 2xx range. -/
def is2xx (s : Nat) : Bool := decide (200 ≤ s) && decide (s < 300)

/-- The all-null stats dict produced on any enrichment failure
(lines 38 and 106 of `server.py`). -/
def nullStats : Json :=
  .obj [("want", .null), ("have", .null), ("rating", .null)]

/-- The `try`-block body of `_fetch_release_stats` after a parsed response
(lines 31-36): the `community` field chain, each step a `dict.get`. -/
def fetch_release_stats_body (data : Json) : Except Unit Json :=
  eb (pyGet data "community" (.obj [])) fun community =>
  eb (pyGet community "want" .null) fun want =>
  eb (pyGet community "have" .null) fun haveV =>
  eb (pyGet community "rating" (.obj [])) fun ratingObj =>
  eb (pyGet ratingObj "average" .null) fun rating =>
  .ok (.obj [("want", want), ("have", haveV), ("rating", rating)])

/-- The `except Exception` clause of `_fetch_release_stats` (line 37-38):
a raised exception becomes the all-null stats dict. -/
def statsOrNull (e : Except Unit Json) : Json :=
  match e with
  | .error _ => nullStats
  | .ok stats => stats

/-- `_fetch_release_stats` (lines 25-38): any exception anywhere in the
try block — transport failure, `raise_for_status` on a non-2xx response,
a JSON parse error, or an attribute error while digging out the fields —
is swallowed and replaced by `nullStats`. -/
def fetch_release_stats (o : FetchOutcome) : Json :=
  match o with
  | .transportError => nullStats
  | .response status body =>
    if is2xx status = true then
      statsOrNull (eb body fetch_release_stats_body)
    else nullStats

/-- digits of `(\d+)` folded into the integer `int(...)` produces. -/
def natOfDigits (ds : List Char) : Nat :=
  ds.foldl (fun acc c => 10 * acc + (c.toNat - 48)) 0

/-- Literal list-of-chars comparison used by the regex model. -/
def strStarts : List Char → List Char → Bool
  | [], _ => true
  | _ :: _, [] => false
  | p :: ps, c :: cs => p == c && strStarts ps cs

/-- Attempt to match the pattern `/release/(\d+)` at the head of `cs`:
the literal must be present and followed by at least one digit; the
capture is the maximal (greedy) digit run.  `\d` is modelled as an ASCII
digit (the claims only exercise ASCII URIs). -/
def matchReleaseAt (cs : List Char) : Option Nat :=
  if strStarts "/release/".data cs = true then
    let ds := (cs.drop 9).takeWhile Char.isDigit
    if ds.isEmpty then none else some (natOfDigits ds)
  else none

/-- `re.search(r"/release/(\d+)", uri)` followed by `int(match.group(1))`:
leftmost match wins, scanning character by character. -/
def searchRelease : List Char → Option Nat
  | [] => none
  | c :: cs =>
    match matchReleaseAt (c :: cs) with
    | some n => some n
    | none => searchRelease cs

/-- Lines 93-98 of `server.py` for one item: `uri = item.get("uri", "")`
then the regex search.  `re.search` raises `TypeError` when its subject is
not a string, so a present non-string `uri` is an error; an absent `uri`
falls back to `""` and yields no match. -/
def extractReleaseId (item : Json) : Except Unit (Option Nat) :=
  eb (pyGet item "uri" (.str "")) fun uri =>
    match uri with
    | .str s => .ok (searchRelease s.data)
    | _ => .error ()

/-- Lines 102-106: `if rid:` — Python truthiness, so `None` and the
integer `0` both take the placeholder branch, which yields `nullStats`
without any network call; a non-zero id fetches stats via the oracle. -/
def statsFor (oracle : Nat → FetchOutcome) (rid : Option Nat) : Json :=
  match rid with
  | some r => if r = 0 then nullStats else fetch_release_stats (oracle r)
  | none => nullStats

/-- Arguments of the `search_records` tool (line 42-49); `n` defaults to 5
in Python but is explicit here. -/
structure SearchArgs where
  query : String
  n : Int
  type : Option String
  artist : Option String
  genre : Option String
  year : Option String
  format : Option String

/-- A query-parameter value: string or integer. -/
inductive PVal where
  | pstr : String → PVal
  | pint : Int → PVal
deriving DecidableEq

/-- One optional filter: `if v: params[k] = v` — Python truthiness again,
so `None` and the empty string are both skipped. -/
def strFilter (k : String) (v : Option String) : List (String × PVal) :=
  match v with
  | some s => if s = "" then [] else [(k, .pstr s)]
  | none => []

/-- Lines 63-73: the outbound query mapping, in insertion order. -/
def searchParams (a : SearchArgs) : List (String × PVal) :=
  [("q", .pstr a.query), ("per_page", .pint (min a.n 100))]
    ++ strFilter "type" a.type ++ strFilter "artist" a.artist
    ++ strFilter "genre" a.genre ++ strFilter "year" a.year
    ++ strFilter "format" a.format

/-- First-match lookup in the parameter mapping. -/
def lookupP : List (String × PVal) → String → Option PVal
  | [], _ => none
  | (k', v) :: ps, k => if k' = k then some v else lookupP ps k

/-- Python slice `xs[:n]` for an `int` n: nonnegative n keeps the first n
elements; negative n drops the last `|n|` elements (clamped at empty). -/
def pyTake (n : Int) (xs : List α) : List α :=
  if 0 ≤ n then xs.take n.toNat
  else xs.take (xs.length - (-n).toNat)

/-- Lines 112-125: reshape one upstream search item together with its
stats dict into the output dict, in the dict-literal's evaluation order.
Each `item.get` raises on a non-dict item; `stats` is always a dict built
by this program. -/
def reshapeSearchItem (item : Json) (stats : Json) : Except Unit Json :=
  eb (pyGet item "title" .null) fun title =>
  eb (pyGet item "year" .null) fun year =>
  eb (pyGet item "format" .null) fun format =>
  eb (pyGet item "label" .null) fun label =>
  eb (pyGet item "genre" .null) fun genre =>
  eb (pyGet item "style" .null) fun style =>
  eb (pyGet item "country" .null) fun country =>
  eb (pyGet item "uri" (.str "")) fun uriVal =>
  eb (pyGet item "thumb" .null) fun thumb =>
  eb (pyGet stats "want" .null) fun want =>
  eb (pyGet stats "have" .null) fun haveV =>
  eb (pyGet stats "rating" .null) fun rating =>
  .ok (.obj [("title", title), ("year", year), ("format", format),
    ("label", label), ("genre", genre), ("style", style),
    ("country", country),
    ("url", .str ("https://www.discogs.com" ++ pyStr uriVal)),
    ("thumb", thumb), ("want", want), ("have", haveV), ("rating", rating)])

/-- Lines 88-126 after the `results` value is in hand: truncate with the
slice `[:n]`, extract ids, fan out stats, join positionally
(`asyncio.gather` returns results in argument order; then
`zip(items, stats_list)`).  A non-list `results` value is an error:
slicing a dict or int raises, and slicing a string yields characters on
which `item.get` then raises. -/
def searchFromResults (a : SearchArgs) (oracle : Nat → FetchOutcome)
    (resultsVal : Json) : Except Unit (List Json) :=
  match resultsVal with
  | .arr rs =>
    eb (mapE extractReleaseId (pyTake a.n rs)) fun rids =>
      mapE (fun p => reshapeSearchItem p.1 p.2)
        ((pyTake a.n rs).zip (rids.map (statsFor oracle)))
  | _ => .error ()

/-- `search_records` (lines 41-126).  `primary` is the outcome of the GET
to `/database/search`; `oracle` gives the outcome of the GET to
`/releases/{id}` for each id the fan-out actually requests.
`raise_for_status` and the JSON parse propagate their exceptions. -/
def search_records (a : SearchArgs) (primary : FetchOutcome)
    (oracle : Nat → FetchOutcome) : Except Unit (List Json) :=
  match primary with
  | .transportError => .error ()
  | .response status body =>
    if is2xx status = true then
      eb body fun data =>
        eb (pyGet data "results" (.arr [])) (searchFromResults a oracle)
    else .error ()

/-- One tracklist entry (line 155). -/
def reshapeTrack (t : Json) : Except Unit Json :=
  eb (pyGet t "position" .null) fun pos =>
  eb (pyGet t "title" .null) fun title =>
  eb (pyGet t "duration" .null) fun dur =>
  .ok (.obj [("position", pos), ("title", title), ("duration", dur)])

/-- Lines 146-163: reshape the parsed release-detail payload.  The
comprehensions over `artists`, `labels` and `tracklist` iterate their
value (default `[]`) and call `.get` on each element; the `community`
chain re-evaluates `data.get("community", {})` per line, which is pure, so
it is bound once here. -/
def get_release_body (data : Json) : Except Unit Json :=
  eb (pyGet data "title" .null) fun title =>
  eb (pyGet data "artists" (.arr [])) fun artistsRaw =>
  eb (pyIter artistsRaw) fun artistsList =>
  eb (mapE (fun a => pyGet a "name" .null) artistsList) fun artists =>
  eb (pyGet data "year" .null) fun year =>
  eb (pyGet data "formats" .null) fun formats =>
  eb (pyGet data "labels" (.arr [])) fun labelsRaw =>
  eb (pyIter labelsRaw) fun labelsList =>
  eb (mapE (fun l => pyGet l "name" .null) labelsList) fun labels =>
  eb (pyGet data "genres" .null) fun genres =>
  eb (pyGet data "styles" .null) fun styles =>
  eb (pyGet data "country" .null) fun country =>
  eb (pyGet data "tracklist" (.arr [])) fun tracklistRaw =>
  eb (pyIter tracklistRaw) fun trackList =>
  eb (mapE reshapeTrack trackList) fun tracklist =>
  eb (pyGet data "community" (.obj [])) fun community =>
  eb (pyGet community "want" .null) fun want =>
  eb (pyGet community "have" .null) fun haveV =>
  eb (pyGet community "rating" (.obj [])) fun ratingObj =>
  eb (pyGet ratingObj "average" .null) fun rating =>
  eb (pyGet ratingObj "count" .null) fun ratingsCount =>
  eb (pyGet data "uri" .null) fun url =>
  .ok (.obj [("title", title), ("artists", .arr artists), ("year", year),
    ("formats", formats), ("labels", .arr labels), ("genres", genres),
    ("styles", styles), ("country", country), ("tracklist", .arr tracklist),
    ("community", .obj [("want", want), ("have", haveV), ("rating", rating),
      ("ratings_count", ratingsCount)]),
    ("url", url)])

/-- `get_release` (lines 129-163): one GET to `/releases/{id}`;
`raise_for_status` and the JSON parse propagate their exceptions (tool
failure), then the payload is reshaped. -/
def get_release (o : FetchOutcome) : Except Unit Json :=
  match o with
  | .transportError => .error ()
  | .response status body =>
    if is2xx status = true then eb body get_release_body
    else .error ()

/-- Top-level keys of a JSON dict (empty for non-dicts). -/
def keysOf : Json → List String
  | .obj fs => fs.map Prod.fst
  | _ => []

/-- Whether a JSON dict has a given top-level key. -/
def hasKey (j : Json) (k : String) : Bool := (keysOf j).contains k

/-- Top-level field lookup on a JSON dict. -/
def lookupK (j : Json) (k : String) : Option Json :=
  match j with
  | .obj fs => lookupJ fs k
  | _ => none

/-- Whether an HTTP outcome counts as a primary-call failure: transport
error or non-2xx status. -/
def primaryFails : FetchOutcome → Bool
  | .transportError => true
  | .response s _ => !is2xx s

/-- Whether an HTTP outcome counts as a failed enrichment call in any of
the three error kinds: transport failure, non-2xx status, malformed body. -/
def enrichmentFailed : FetchOutcome → Bool
  | .transportError => true
  | .response s b => !is2xx s || !isOkE b

/-- A stats dict as built by this program: the three fixed keys in order. -/
def statsShaped (s : Json) : Prop :=
  ∃ w hv r, s = .obj [("want", w), ("have", hv), ("rating", r)]

/-- The keys of every search result item, in output order. -/
def searchItemKeys : List String :=
  ["title", "year", "format", "label", "genre", "style", "country",
   "url", "thumb", "want", "have", "rating"]

/-- The keys of every release detail dict, in output order. -/
def releaseKeys : List String :=
  ["title", "artists", "year", "formats", "labels", "genres", "styles",
   "country", "tracklist", "community", "url"]

/-- The all-null community sub-dict of a release detail. -/
def allNullCommunity : Json :=
  .obj [("want", .null), ("have", .null), ("rating", .null),
    ("ratings_count", .null)]

/-- An oracle failing every enrichment request at transport level. -/
def oracleT : Nat → FetchOutcome := fun _ => .transportError

/-- The release detail produced from an empty upstream payload. -/
def emptyRelease : Json :=
  .obj [("title", .null), ("artists", .arr []), ("year", .null),
    ("formats", .null), ("labels", .arr []), ("genres", .null),
    ("styles", .null), ("country", .null), ("tracklist", .arr []),
    ("community", allNullCommunity), ("url", .null)]

/-- The search item produced from an empty upstream item with null stats. -/
def blankItemOut : Json :=
  .obj [("title", .null), ("year", .null), ("format", .null),
    ("label", .null), ("genre", .null), ("style", .null),
    ("country", .null), ("url", .str "https://www.discogs.com"),
    ("thumb", .null), ("want", .null), ("have", .null), ("rating", .null)]

/-- A search item whose `uri` only differs from the blank item. -/
def itemOutWithUri (u : String) : Json :=
  .obj [("title", .null), ("year", .null), ("format", .null),
    ("label", .null), ("genre", .null), ("style", .null),
    ("country", .null), ("url", .str ("https://www.discogs.com" ++ u)),
    ("thumb", .null), ("want", .null), ("have", .null), ("rating", .null)]

/-- Default search arguments: query only, default `n = 5`. -/
def args1 : SearchArgs := ⟨"beatles", 5, none, none, none, none, none⟩

/-- Search arguments with a negative requested count. -/
def argsNeg : SearchArgs := ⟨"beatles", -1, none, none, none, none, none⟩

/-- An upstream search payload with twenty empty result items. -/
def data20 : Json := .obj [("results", .arr (List.replicate 20 (.obj [])))]

/-- An upstream search payload with five empty result items. -/
def data5 : Json := .obj [("results", .arr (List.replicate 5 (.obj [])))]

/-- An upstream search payload with one item pointing at release 123. -/
def dataRel : Json :=
  .obj [("results", .arr [.obj [("uri", .str "/release/123-X")]])]

/-- An upstream search payload whose single item has a numeric `uri`. -/
def dataC8 : Json := .obj [("results", .arr [.obj [("uri", .num 42)]])]

/-- An upstream search payload whose single item points at release 0. -/
def dataC10 : Json :=
  .obj [("results", .arr [.obj [("uri", .str "/release/0")]])]

/-- The parameter value a filter contributes: nothing when the filter is
null or the empty string (Python truthiness), its string otherwise. -/
def filterVal : Option String → Option PVal
  | some s => if s = "" then none else some (.pstr s)
  | none => none

/-- Search arguments with a truthy type filter and an empty artist filter. -/
def argsFull : SearchArgs :=
  ⟨"beatles", 5, some "release", some "", none, none, none⟩

/-- Search arguments requesting zero results. -/
def argsZero : SearchArgs := ⟨"beatles", 0, none, none, none, none, none⟩

/-- An upstream search payload with an empty result list. -/
def dataEmpty : Json := .obj [("results", .arr [])]

/-- The tracklist entry produced from an empty upstream track object. -/
def trackNull : Json :=
  .obj [("position", .null), ("title", .null), ("duration", .null)]

end Discogs

namespace Discogs

/-! ## Helper lemmas -/

/-- Inversion for exception-propagating sequencing. -/
theorem eb_ok {e : Except Unit α} {f : α → Except Unit β} {r : β}
    (h : eb e f = .ok r) : ∃ a, e = .ok a ∧ f a = .ok r := by
  cases e with
  | error u => simp [eb] at h
  | ok a => exact ⟨a, rfl, h⟩

/-- A successful effectful map preserves length. -/
theorem mapE_ok_length {f : α → Except Unit β} :
    ∀ {xs : List α} {ys : List β}, mapE f xs = .ok ys →
      ys.length = xs.length := by
  intro xs
  induction xs with
  | nil => intro ys h; cases h; rfl
  | cons x xs ih =>
    intro ys h
    unfold mapE at h
    cases hx : f x with
    | error u => rw [hx] at h; simp at h
    | ok y =>
      rw [hx] at h
      cases hxs : mapE f xs with
      | error u => rw [hxs] at h; simp at h
      | ok ys' =>
        rw [hxs] at h
        cases h
        simp [ih hxs]

/-- A successful effectful map acts pointwise, by position. -/
theorem mapE_ok_get {f : α → Except Unit β} :
    ∀ {xs : List α} {ys : List β}, mapE f xs = .ok ys →
      ∀ (i : Nat) (hx : i < xs.length) (hy : i < ys.length),
        f (xs.get ⟨i, hx⟩) = .ok (ys.get ⟨i, hy⟩) := by
  intro xs
  induction xs with
  | nil => intro ys h i hx hy; exact absurd hx (by simp)
  | cons x xs ih =>
    intro ys h i hx hy
    unfold mapE at h
    cases hx' : f x with
    | error u => rw [hx'] at h; simp at h
    | ok y =>
      rw [hx'] at h
      cases hxs : mapE f xs with
      | error u => rw [hxs] at h; simp at h
      | ok ys' =>
        rw [hxs] at h
        cases h
        cases i with
        | zero => simpa using hx'
        | succ j =>
          exact ih hxs j (Nat.lt_of_succ_lt_succ hx) (Nat.lt_of_succ_lt_succ hy)

/-- Every element of a successful effectful map's output comes from some
input element. -/
theorem mapE_ok_mem {f : α → Except Unit β} :
    ∀ {xs : List α} {ys : List β}, mapE f xs = .ok ys →
      ∀ {y : β}, y ∈ ys → ∃ x, x ∈ xs ∧ f x = .ok y := by
  intro xs
  induction xs with
  | nil => intro ys h y hy; cases h; simp at hy
  | cons x xs ih =>
    intro ys h y hy
    unfold mapE at h
    cases hx : f x with
    | error u => rw [hx] at h; simp at h
    | ok y' =>
      rw [hx] at h
      cases hxs : mapE f xs with
      | error u => rw [hxs] at h; simp at h
      | ok ys' =>
        rw [hxs] at h
        cases h
        rcases List.mem_cons.mp hy with h1 | h2
        · exact ⟨x, List.mem_cons_self x xs, h1 ▸ hx⟩
        · obtain ⟨x', hx', hfx'⟩ := ih hxs h2
          exact ⟨x', List.mem_cons_of_mem x hx', hfx'⟩

/-- Success of an effectful map on a cons cell factors through its parts. -/
theorem mapE_isOk_cons (f : α → Except Unit β) (x : α) (xs : List α) :
    isOkE (mapE f (x :: xs)) = (isOkE (f x) && isOkE (mapE f xs)) := by
  cases hx : f x <;> cases hxs : mapE f xs <;>
    simp [mapE, hx, hxs, isOkE]

/-- Positional access into a zip. -/
theorem get_zip (xs : List α) (ys : List β) :
    ∀ (i : Nat) (h : i < (xs.zip ys).length) (hx : i < xs.length)
      (hy : i < ys.length),
      (xs.zip ys).get ⟨i, h⟩ = (xs.get ⟨i, hx⟩, ys.get ⟨i, hy⟩) := by
  induction xs generalizing ys with
  | nil => intro i h hx hy; exact absurd hx (by simp)
  | cons x xs ih =>
    intro i h hx hy
    cases ys with
    | nil => exact absurd hy (by simp)
    | cons y ys =>
      cases i with
      | zero => rfl
      | succ j =>
        exact ih ys j (by simpa [List.length_zip] using h)
          (Nat.lt_of_succ_lt_succ hx) (Nat.lt_of_succ_lt_succ hy)

/-- The try-block of `_fetch_release_stats` only ever builds the
three-key stats dict. -/
theorem fetch_body_shaped {d s : Json}
    (h : fetch_release_stats_body d = .ok s) : statsShaped s := by
  unfold fetch_release_stats_body at h
  obtain ⟨c, hc, h⟩ := eb_ok h
  obtain ⟨w, hw, h⟩ := eb_ok h
  obtain ⟨hv, hh, h⟩ := eb_ok h
  obtain ⟨ro, hro, h⟩ := eb_ok h
  obtain ⟨r, hr, h⟩ := eb_ok h
  cases h
  exact ⟨w, hv, r, rfl⟩

/-- `_fetch_release_stats` always returns a three-key stats dict. -/
theorem fetch_shaped (o : FetchOutcome) :
    statsShaped (fetch_release_stats o) := by
  cases o with
  | transportError => exact ⟨.null, .null, .null, rfl⟩
  | response s b =>
    have hred : fetch_release_stats (.response s b) =
        (if is2xx s = true then statsOrNull (eb b fetch_release_stats_body)
         else nullStats) := rfl
    rw [hred]
    by_cases hs : is2xx s = true
    · rw [if_pos hs]
      cases b with
      | error u => exact ⟨.null, .null, .null, rfl⟩
      | ok d =>
        simp only [eb]
        cases hb : fetch_release_stats_body d with
        | error u => exact ⟨.null, .null, .null, rfl⟩
        | ok stats => exact fetch_body_shaped hb
    · rw [if_neg hs]
      exact ⟨.null, .null, .null, rfl⟩

/-- The stats joined to every item are a three-key stats dict. -/
theorem statsFor_shaped (oracle : Nat → FetchOutcome) (rid : Option Nat) :
    statsShaped (statsFor oracle rid) := by
  cases rid with
  | none => exact ⟨.null, .null, .null, rfl⟩
  | some r =>
    unfold statsFor
    by_cases h : r = 0
    · simp only [h, if_pos rfl]; exact ⟨.null, .null, .null, rfl⟩
    · simp only [if_neg h]; exact fetch_shaped (oracle r)

/-- Whether the per-item reshape succeeds depends only on the item, not
on the stats dict (any well-shaped stats dict answers every lookup). -/
theorem reshape_isOk_congr (item : Json) {s₁ s₂ : Json}
    (h₁ : statsShaped s₁) (h₂ : statsShaped s₂) :
    isOkE (reshapeSearchItem item s₁) = isOkE (reshapeSearchItem item s₂) := by
  obtain ⟨w₁, v₁, r₁, rfl⟩ := h₁
  obtain ⟨w₂, v₂, r₂, rfl⟩ := h₂
  unfold reshapeSearchItem
  cases h : pyGet item "title" Json.null <;> simp only [eb, h]
  cases h2 : pyGet item "year" Json.null <;> simp only [eb, h2]
  cases h3 : pyGet item "format" Json.null <;> simp only [eb, h3]
  cases h4 : pyGet item "label" Json.null <;> simp only [eb, h4]
  cases h5 : pyGet item "genre" Json.null <;> simp only [eb, h5]
  cases h6 : pyGet item "style" Json.null <;> simp only [eb, h6]
  cases h7 : pyGet item "country" Json.null <;> simp only [eb, h7]
  cases h8 : pyGet item "uri" (Json.str "") <;> simp only [eb, h8]
  cases h9 : pyGet item "thumb" Json.null <;> simp only [eb, h9]
  rfl

/-- Keys of every successfully reshaped search item. -/
theorem reshape_keys {item stats r : Json}
    (h : reshapeSearchItem item stats = .ok r) : keysOf r = searchItemKeys := by
  unfold reshapeSearchItem at h
  obtain ⟨a1, _, h⟩ := eb_ok h
  obtain ⟨a2, _, h⟩ := eb_ok h
  obtain ⟨a3, _, h⟩ := eb_ok h
  obtain ⟨a4, _, h⟩ := eb_ok h
  obtain ⟨a5, _, h⟩ := eb_ok h
  obtain ⟨a6, _, h⟩ := eb_ok h
  obtain ⟨a7, _, h⟩ := eb_ok h
  obtain ⟨a8, _, h⟩ := eb_ok h
  obtain ⟨a9, _, h⟩ := eb_ok h
  obtain ⟨a10, _, h⟩ := eb_ok h
  obtain ⟨a11, _, h⟩ := eb_ok h
  obtain ⟨a12, _, h⟩ := eb_ok h
  cases h
  rfl

/-- Keys of every successfully reshaped release detail. -/
theorem release_body_keys {data r : Json}
    (h : get_release_body data = .ok r) : keysOf r = releaseKeys := by
  unfold get_release_body at h
  obtain ⟨b1, _, h⟩ := eb_ok h
  obtain ⟨b2, _, h⟩ := eb_ok h
  obtain ⟨b3, _, h⟩ := eb_ok h
  obtain ⟨b4, _, h⟩ := eb_ok h
  obtain ⟨b5, _, h⟩ := eb_ok h
  obtain ⟨b6, _, h⟩ := eb_ok h
  obtain ⟨b7, _, h⟩ := eb_ok h
  obtain ⟨b8, _, h⟩ := eb_ok h
  obtain ⟨b9, _, h⟩ := eb_ok h
  obtain ⟨b10, _, h⟩ := eb_ok h
  obtain ⟨b11, _, h⟩ := eb_ok h
  obtain ⟨b12, _, h⟩ := eb_ok h
  obtain ⟨b13, _, h⟩ := eb_ok h
  obtain ⟨b14, _, h⟩ := eb_ok h
  obtain ⟨b15, _, h⟩ := eb_ok h
  obtain ⟨b16, _, h⟩ := eb_ok h
  obtain ⟨b17, _, h⟩ := eb_ok h
  obtain ⟨b18, _, h⟩ := eb_ok h
  obtain ⟨b19, _, h⟩ := eb_ok h
  obtain ⟨b20, _, h⟩ := eb_ok h
  obtain ⟨b21, _, h⟩ := eb_ok h
  obtain ⟨b22, _, h⟩ := eb_ok h
  cases h
  rfl

/-- Structure of every successful `search_records` run: the output is the
positional join of the truncated upstream items with their per-position
stats. -/
theorem search_ok_structure {a : SearchArgs} {s : Nat} {data : Json}
    {rs : List Json} {oracle : Nat → FetchOutcome} {out : List Json}
    (hres : pyGet data "results" (.arr []) = .ok (.arr rs))
    (hout : search_records a (.response s (.ok data)) oracle = .ok out) :
    is2xx s = true ∧
    ∃ rids, mapE extractReleaseId (pyTake a.n rs) = .ok rids ∧
      rids.length = (pyTake a.n rs).length ∧
      out.length = (pyTake a.n rs).length ∧
      mapE (fun p => reshapeSearchItem p.1 p.2)
        ((pyTake a.n rs).zip (rids.map (statsFor oracle))) = .ok out := by
  have hred : search_records a (.response s (.ok data)) oracle =
      (if is2xx s = true then
        eb (pyGet data "results" (.arr [])) (searchFromResults a oracle)
      else .error ()) := rfl
  rw [hred] at hout
  by_cases hs : is2xx s = true
  · refine ⟨hs, ?_⟩
    rw [if_pos hs, hres] at hout
    simp only [eb] at hout
    simp only [searchFromResults] at hout
    cases hrid : mapE extractReleaseId (pyTake a.n rs) with
    | error u => rw [hrid] at hout; simp [eb] at hout
    | ok rids =>
      rw [hrid] at hout
      simp only [eb] at hout
      have hlenr : rids.length = (pyTake a.n rs).length := mapE_ok_length hrid
      have hleno : out.length = (pyTake a.n rs).length := by
        have := mapE_ok_length hout
        rw [List.length_zip, List.length_map, hlenr, min_self] at this
        exact this
      exact ⟨rids, rfl, hlenr, hleno, hout⟩
  · rw [if_neg hs] at hout
    simp at hout

/-- Inversion of a successful `search_records` run: the primary outcome
was a parsed 2xx response, `results` held a list, every id extraction
succeeded, and the output is the positional join. -/
theorem search_ok_inv {a : SearchArgs} {primary : FetchOutcome}
    {oracle : Nat → FetchOutcome} {out : List Json}
    (hout : search_records a primary oracle = .ok out) :
    ∃ s data rs, primary = .response s (.ok data) ∧ is2xx s = true ∧
      pyGet data "results" (.arr []) = .ok (.arr rs) ∧
      ∃ rids, mapE extractReleaseId (pyTake a.n rs) = .ok rids ∧
        mapE (fun p => reshapeSearchItem p.1 p.2)
          ((pyTake a.n rs).zip (rids.map (statsFor oracle))) = .ok out := by
  cases primary with
  | transportError => exact Except.noConfusion hout
  | response s b =>
    have hred : search_records a (.response s b) oracle =
        (if is2xx s = true then
          eb b fun data =>
            eb (pyGet data "results" (.arr [])) (searchFromResults a oracle)
        else .error ()) := rfl
    rw [hred] at hout
    by_cases hs : is2xx s = true
    · rw [if_pos hs] at hout
      cases b with
      | error u => exact Except.noConfusion hout
      | ok data =>
        simp only [eb] at hout
        cases hpg : pyGet data "results" (.arr []) with
        | error u => rw [hpg] at hout; exact Except.noConfusion hout
        | ok rv =>
          rw [hpg] at hout
          simp only [eb] at hout
          cases rv with
          | arr rs =>
            simp only [searchFromResults] at hout
            cases hrid : mapE extractReleaseId (pyTake a.n rs) with
            | error u => rw [hrid] at hout; exact Except.noConfusion hout
            | ok rids =>
              rw [hrid] at hout
              simp only [eb] at hout
              exact ⟨s, data, rs, rfl, hs, hpg, rids, hrid, hout⟩
          | null => exact Except.noConfusion hout
          | bool x => exact Except.noConfusion hout
          | num x => exact Except.noConfusion hout
          | str x => exact Except.noConfusion hout
          | obj x => exact Except.noConfusion hout
    · rw [if_neg hs] at hout
      exact Except.noConfusion hout

/-- The per-item fields extracted from a null stats dict are null. -/
theorem reshape_nullStats_fields {item r : Json}
    (h : reshapeSearchItem item nullStats = .ok r) :
    lookupK r "want" = some .null ∧ lookupK r "have" = some .null ∧
    lookupK r "rating" = some .null := by
  unfold reshapeSearchItem at h
  obtain ⟨a1, _, h⟩ := eb_ok h
  obtain ⟨a2, _, h⟩ := eb_ok h
  obtain ⟨a3, _, h⟩ := eb_ok h
  obtain ⟨a4, _, h⟩ := eb_ok h
  obtain ⟨a5, _, h⟩ := eb_ok h
  obtain ⟨a6, _, h⟩ := eb_ok h
  obtain ⟨a7, _, h⟩ := eb_ok h
  obtain ⟨a8, _, h⟩ := eb_ok h
  obtain ⟨a9, _, h⟩ := eb_ok h
  obtain ⟨w, hw, h⟩ := eb_ok h
  obtain ⟨hv, hhv, h⟩ := eb_ok h
  obtain ⟨rt, hrt, h⟩ := eb_ok h
  have hw' : w = .null := by
    have hw2 : Except.ok Json.null = Except.ok w := hw
    exact (Except.ok.inj hw2).symm
  have hhv' : hv = .null := by
    have hh2 : Except.ok Json.null = Except.ok hv := hhv
    exact (Except.ok.inj hh2).symm
  have hrt' : rt = .null := by
    have hr2 : Except.ok Json.null = Except.ok rt := hrt
    exact (Except.ok.inj hr2).symm
  cases h
  subst hw' hhv' hrt'
  refine ⟨?_, ?_, ?_⟩ <;> simp [lookupK, lookupJ]

end Discogs

namespace Discogs

/-! ## Claim theorems -/

/-- C1 counterexample: the claim asserts that a successful `get_release`
result contains a `pricing` field (all-null when the pricing call fails).
On this code, `get_release` makes no pricing call at all, and its
successful result — here for a 2xx response with an empty JSON object
body — contains no `pricing` key. -/
theorem get_release_pricing_cex :
    get_release (.response 200 (.ok (.obj []))) = .ok emptyRelease ∧
    hasKey emptyRelease "pricing" = false :=
  ⟨rfl, rfl⟩

/-- C1 (amended): `get_release` issues no marketplace-pricing call, so no
pricing failure can abort it; for every fetch outcome, a non-error result
contains no `pricing` field at all (rather than one with null members). -/
theorem get_release_result_has_no_pricing (o : FetchOutcome) (r : Json)
    (h : get_release o = .ok r) : hasKey r "pricing" = false := by
  cases o with
  | transportError => exact Except.noConfusion h
  | response s b =>
    have hred : get_release (.response s b) =
        (if is2xx s = true then eb b get_release_body else .error ()) := rfl
    rw [hred] at h
    by_cases hs : is2xx s = true
    · rw [if_pos hs] at h
      cases b with
      | error u => exact Except.noConfusion h
      | ok d =>
        simp only [eb] at h
        have hk := release_body_keys h
        unfold hasKey
        rw [hk]
        rfl
    · rw [if_neg hs] at h
      exact Except.noConfusion h

/-- Witness for C1's amended theorem at a concrete successful outcome. -/
theorem get_release_result_has_no_pricing_witness :
    hasKey emptyRelease "pricing" = false :=
  get_release_result_has_no_pricing (.response 200 (.ok (.obj [])))
    emptyRelease rfl

/-- C3: a transport failure or non-2xx status on the release-detail call
fails the whole `get_release` operation with a propagated error (there is
no pricing call whose outcome could change this). -/
theorem get_release_fails_on_primary_failure (o : FetchOutcome)
    (h : primaryFails o = true) : ∃ u, get_release o = .error u := by
  cases o with
  | transportError => exact ⟨(), rfl⟩
  | response s b =>
    have hs : is2xx s = false := by
      have : (!is2xx s) = true := h
      simpa using this
    have hred : get_release (.response s b) =
        (if is2xx s = true then eb b get_release_body else .error ()) := rfl
    rw [hred, if_neg (by simp [hs])]
    exact ⟨(), rfl⟩

/-- Witness for C3 at a concrete 404 response. -/
theorem get_release_fails_on_primary_failure_witness :
    ∃ u, get_release (.response 404 (.ok (.obj []))) = .error u :=
  get_release_fails_on_primary_failure (.response 404 (.ok (.obj []))) rfl

/-- C4 counterexample: a successful search whose single upstream item has
`uri = "/release/123-X"` produces an output item with no `releaseId` key
(the extracted id 123 drives the stats fetch but is not included). -/
theorem search_item_releaseId_cex :
    search_records args1 (.response 200 (.ok dataRel)) oracleT =
      .ok [itemOutWithUri "/release/123-X"] ∧
    hasKey (itemOutWithUri "/release/123-X") "releaseId" = false :=
  ⟨rfl, rfl⟩

/-- C4 (amended): every item returned by `search_records` has exactly the
keys title, year, format, label, genre, style, country, url, thumb, want,
have, rating — in particular no `releaseId` field; the release id parsed
from the uri is used only to drive the enrichment fetch. -/
theorem search_item_keys_fixed (a : SearchArgs) (primary : FetchOutcome)
    (oracle : Nat → FetchOutcome) (out : List Json) (r : Json)
    (hout : search_records a primary oracle = .ok out) (hr : r ∈ out) :
    keysOf r = searchItemKeys ∧ hasKey r "releaseId" = false := by
  obtain ⟨s, data, rs, -, -, -, rids, -, hjoin⟩ := search_ok_inv hout
  obtain ⟨p, -, hp⟩ := mapE_ok_mem hjoin hr
  have hk := reshape_keys hp
  refine ⟨hk, ?_⟩
  unfold hasKey
  rw [hk]
  rfl

/-- Witness for C4's amended theorem at a concrete run. -/
theorem search_item_keys_fixed_witness :
    keysOf (itemOutWithUri "/release/123-X") = searchItemKeys ∧
    hasKey (itemOutWithUri "/release/123-X") "releaseId" = false :=
  search_item_keys_fixed args1 (.response 200 (.ok dataRel)) oracleT
    [itemOutWithUri "/release/123-X"] (itemOutWithUri "/release/123-X")
    rfl (by simp)

/-- C8 counterexample: the claim says extraction never raises, but an
item whose `uri` field is present and not a string (here the number 42)
makes `re.search` raise `TypeError`, aborting the whole search. -/
theorem release_id_extraction_cex :
    extractReleaseId (.obj [("uri", .num 42)]) = .error () ∧
    search_records args1 (.response 200 (.ok dataC8)) oracleT = .error () :=
  ⟨rfl, rfl⟩

/-- C8 (amended): the release id is extracted by regex search for
`/release/(\d+)` on the item's uri: "/release/123456-Artist-Title" gives
123456; "/master/789", any string uri without the segment, and an absent
uri give a null id without error; but a present non-string uri raises and
aborts the search. -/
theorem release_id_extraction_regex :
    extractReleaseId (.obj [("uri", .str "/release/123456-Artist-Title")]) =
      .ok (some 123456) ∧
    extractReleaseId (.obj [("uri", .str "/master/789")]) = .ok none ∧
    (∀ fs : List (String × Json), lookupJ fs "uri" = none →
      extractReleaseId (.obj fs) = .ok none) ∧
    (∀ (fs : List (String × Json)) (s : String),
      lookupJ fs "uri" = some (.str s) →
      extractReleaseId (.obj fs) = .ok (searchRelease s.data)) := by
  refine ⟨rfl, rfl, ?_, ?_⟩
  · intro fs h
    simp [extractReleaseId, pyGet, h, eb, searchRelease]
  · intro fs s h
    simp [extractReleaseId, pyGet, h, eb]

/-- Witness for C8's amended theorem: an item with no `uri` key. -/
theorem release_id_extraction_regex_witness :
    extractReleaseId (.obj []) = .ok none :=
  release_id_extraction_regex.2.2.1 [] rfl

/-- C10: an extracted release id of 0 is treated exactly like a missing
id — Python `if rid:` is false for 0 — so no stats fetch is issued (the
result is the same for every oracle) and the item's want/have/rating are
null. -/
theorem release_id_zero_like_missing :
    (∀ oracle : Nat → FetchOutcome, statsFor oracle (some 0) = nullStats) ∧
    (∀ oracle : Nat → FetchOutcome, statsFor oracle none = nullStats) ∧
    (∀ oracle : Nat → FetchOutcome,
      search_records args1 (.response 200 (.ok dataC10)) oracle =
        .ok [itemOutWithUri "/release/0"]) ∧
    lookupK (itemOutWithUri "/release/0") "want" = some .null ∧
    lookupK (itemOutWithUri "/release/0") "have" = some .null ∧
    lookupK (itemOutWithUri "/release/0") "rating" = some .null :=
  ⟨fun _ => rfl, fun _ => rfl, fun _ => rfl, rfl, rfl, rfl⟩

end Discogs

namespace Discogs

/-! ## Oracle-independence of search success, and length lemmas -/

/-- Positional access into a map. -/
theorem get_map (f : α → β) :
    ∀ (xs : List α) (i : Nat) (h : i < (xs.map f).length)
      (hx : i < xs.length),
      (xs.map f).get ⟨i, h⟩ = f (xs.get ⟨i, hx⟩) := by
  intro xs
  induction xs with
  | nil => intro i h hx; exact absurd hx (by simp)
  | cons x xs ih =>
    intro i h hx
    cases i with
    | zero => rfl
    | succ j => exact ih j (by simpa using h) (Nat.lt_of_succ_lt_succ hx)

/-- Any failed enrichment fetch — transport failure, non-2xx status, or
malformed body — yields the all-null stats dict. -/
theorem fetch_stats_null_on_failure (o : FetchOutcome)
    (h : enrichmentFailed o = true) : fetch_release_stats o = nullStats := by
  cases o with
  | transportError => rfl
  | response s b =>
    have hred : fetch_release_stats (.response s b) =
        (if is2xx s = true then statsOrNull (eb b fetch_release_stats_body)
         else nullStats) := rfl
    rw [hred]
    by_cases hs : is2xx s = true
    · rw [if_pos hs]
      cases b with
      | error u => rfl
      | ok d =>
        exfalso
        have hff : enrichmentFailed (.response s (.ok d)) = false := by
          simp [enrichmentFailed, hs, isOkE]
        rw [hff] at h
        exact Bool.noConfusion h
    · rw [if_neg hs]

/-- A failed enrichment fetch yields null stats for the item that
requested it (id 0 yields null stats without a request at all). -/
theorem statsFor_null_on_failure (oracle : Nat → FetchOutcome) (r : Nat)
    (h : enrichmentFailed (oracle r) = true) :
    statsFor oracle (some r) = nullStats := by
  by_cases h0 : r = 0
  · simp [statsFor, h0]
  · simp only [statsFor, if_neg h0]
    exact fetch_stats_null_on_failure (oracle r) h

/-- The success of the final join does not depend on the oracle, because
every stats dict is well-shaped. -/
theorem reshape_join_isOk_congr (o₁ o₂ : Nat → FetchOutcome) :
    ∀ (items : List Json) (rids : List (Option Nat)),
      isOkE (mapE (fun p => reshapeSearchItem p.1 p.2)
        (items.zip (rids.map (statsFor o₁)))) =
      isOkE (mapE (fun p => reshapeSearchItem p.1 p.2)
        (items.zip (rids.map (statsFor o₂)))) := by
  intro items
  induction items with
  | nil => intro rids; rfl
  | cons it its ih =>
    intro rids
    cases rids with
    | nil => rfl
    | cons rid rids =>
      simp only [List.map_cons, List.zip_cons_cons, mapE_isOk_cons]
      rw [ih rids,
        reshape_isOk_congr it (statsFor_shaped o₁ rid) (statsFor_shaped o₂ rid)]

/-- Whether `search_records` succeeds is independent of the outcomes of
the enrichment calls. -/
theorem search_isOk_oracle_indep (a : SearchArgs) (primary : FetchOutcome)
    (o₁ o₂ : Nat → FetchOutcome) :
    isOkE (search_records a primary o₁) =
      isOkE (search_records a primary o₂) := by
  cases primary with
  | transportError => rfl
  | response s b =>
    have hred1 : search_records a (.response s b) o₁ =
        (if is2xx s = true then
          eb b fun data =>
            eb (pyGet data "results" (.arr [])) (searchFromResults a o₁)
        else .error ()) := rfl
    have hred2 : search_records a (.response s b) o₂ =
        (if is2xx s = true then
          eb b fun data =>
            eb (pyGet data "results" (.arr [])) (searchFromResults a o₂)
        else .error ()) := rfl
    rw [hred1, hred2]
    by_cases hs : is2xx s = true
    · rw [if_pos hs, if_pos hs]
      cases b with
      | error u => rfl
      | ok data =>
        simp only [eb]
        cases hpg : pyGet data "results" (.arr []) with
        | error u => rfl
        | ok rv =>
          simp only [eb]
          cases rv with
          | arr rs =>
            simp only [searchFromResults]
            cases hrid : mapE extractReleaseId (pyTake a.n rs) with
            | error u => rfl
            | ok rids =>
              simp only [eb]
              exact reshape_join_isOk_congr o₁ o₂ (pyTake a.n rs) rids
          | null => rfl
          | bool x => rfl
          | num x => rfl
          | str x => rfl
          | obj x => rfl
    · rw [if_neg hs, if_neg hs]

end Discogs

namespace Discogs

/-- C2: every failed per-item community-stats call — transport failure,
non-2xx status, or malformed body — is swallowed locally: the fetch
yields the all-null stats dict, the item joined to null stats gets null
want/have/rating fields, and whether the enclosing search succeeds never
depends on the enrichment outcomes. -/
theorem enrichment_errors_swallowed :
    (∀ o : FetchOutcome, enrichmentFailed o = true →
      fetch_release_stats o = nullStats) ∧
    (∀ (oracle : Nat → FetchOutcome) (r : Nat),
      enrichmentFailed (oracle r) = true →
      statsFor oracle (some r) = nullStats) ∧
    (∀ item r : Json, reshapeSearchItem item nullStats = .ok r →
      lookupK r "want" = some .null ∧ lookupK r "have" = some .null ∧
      lookupK r "rating" = some .null) ∧
    (∀ (a : SearchArgs) (primary : FetchOutcome)
      (o₁ o₂ : Nat → FetchOutcome),
      isOkE (search_records a primary o₁) =
        isOkE (search_records a primary o₂)) :=
  ⟨fetch_stats_null_on_failure, statsFor_null_on_failure,
   fun _ _ h => reshape_nullStats_fields h, search_isOk_oracle_indep⟩

/-- Witness for C2 at a transport-failed enrichment call. -/
theorem enrichment_errors_swallowed_witness :
    fetch_release_stats .transportError = nullStats :=
  enrichment_errors_swallowed.1 .transportError rfl

/-- C6: a successful search truncates the upstream result list to the
first `n` items (at most `n` for nonnegative `n`), and each output item
is the reshape of the upstream item at the same position joined with the
stats fetched for the id extracted at that same position — association is
by list position, never by completion order. -/
theorem search_truncates_and_joins_by_index
    (a : SearchArgs) (s : Nat) (data : Json) (rs : List Json)
    (oracle : Nat → FetchOutcome) (out : List Json)
    (hres : pyGet data "results" (.arr []) = .ok (.arr rs))
    (hout : search_records a (.response s (.ok data)) oracle = .ok out) :
    (0 ≤ a.n → out.length = min a.n.toNat rs.length ∧
      out.length ≤ a.n.toNat) ∧
    ∃ rids, mapE extractReleaseId (pyTake a.n rs) = .ok rids ∧
      ∀ (i : Nat) (hi : i < (pyTake a.n rs).length) (ho : i < out.length)
        (hr : i < rids.length),
        reshapeSearchItem ((pyTake a.n rs).get ⟨i, hi⟩)
          (statsFor oracle (rids.get ⟨i, hr⟩)) = .ok (out.get ⟨i, ho⟩) := by
  obtain ⟨hs, rids, hrid, hlenr, hleno, hjoin⟩ := search_ok_structure hres hout
  constructor
  · intro hn
    have hpt : (pyTake a.n rs).length = min a.n.toNat rs.length := by
      unfold pyTake
      rw [if_pos hn]
      exact List.length_take _ _
    exact ⟨by rw [hleno, hpt],
      by rw [hleno, hpt]; exact Nat.min_le_left _ _⟩
  · refine ⟨rids, hrid, ?_⟩
    intro i hi ho hr
    have hmaplen : i < (rids.map (statsFor oracle)).length := by
      rw [List.length_map]; exact hr
    have hz : i < ((pyTake a.n rs).zip (rids.map (statsFor oracle))).length := by
      rw [List.length_zip, List.length_map, hlenr, min_self]
      exact hi
    have hmap := mapE_ok_get hjoin i hz ho
    rw [get_zip _ _ i hz hi hmaplen] at hmap
    rw [get_map (statsFor oracle) rids i hmaplen hr] at hmap
    exact hmap

/-- Witness for C6: twenty upstream items with `n = 5` give five items. -/
theorem search_truncates_and_joins_by_index_witness :
    (List.replicate 5 blankItemOut).length =
      min (Int.toNat 5) (List.replicate 20 (Json.obj [])).length ∧
    (List.replicate 5 blankItemOut).length ≤ Int.toNat 5 :=
  (search_truncates_and_joins_by_index args1 200 data20
    (List.replicate 20 (.obj [])) oracleT (List.replicate 5 blankItemOut)
    rfl rfl).1 (by decide)

/-- C5 counterexample: with `n = -1` and five upstream results the caller
receives four items — neither zero nor the upstream count — because the
Python slice `[:n]` with a negative bound drops elements from the end;
`per_page` is forwarded as `min(-1, 100) = -1`. -/
theorem per_page_low_n_cex :
    search_records argsNeg (.response 200 (.ok data5)) oracleT =
      .ok (List.replicate 4 blankItemOut) ∧
    (List.replicate 4 blankItemOut).length = 4 ∧
    (List.replicate 5 (Json.obj [])).length = 5 ∧
    lookupP (searchParams argsNeg) "per_page" = some (.pint (-1)) :=
  ⟨rfl, rfl, rfl, rfl⟩

/-- C5 (amended): `per_page` always equals `min(n, 100)` with no lower
clamp (500 maps to 100, 3 to 3); a caller passing 0 receives zero
results; a caller passing negative `n` receives the upstream list with
its last `|n|` items dropped. -/
theorem per_page_min_and_low_n
    (a : SearchArgs) (s : Nat) (data : Json) (rs : List Json)
    (oracle : Nat → FetchOutcome) (out : List Json)
    (hres : pyGet data "results" (.arr []) = .ok (.arr rs))
    (hout : search_records a (.response s (.ok data)) oracle = .ok out) :
    lookupP (searchParams a) "per_page" = some (.pint (min a.n 100)) ∧
    (a.n = 0 → out.length = 0) ∧
    (a.n < 0 →
      out.length = rs.length - min ((-a.n).toNat) rs.length) := by
  obtain ⟨hs, rids, hrid, hlenr, hleno, hjoin⟩ := search_ok_structure hres hout
  refine ⟨rfl, ?_, ?_⟩
  · intro hn
    rw [hleno]
    unfold pyTake
    rw [if_pos (le_of_eq hn.symm), hn]
    simp
  · intro hn
    rw [hleno]
    unfold pyTake
    rw [if_neg (not_le.mpr hn), List.length_take]
    omega

/-- Witness for C5's amended theorem: `n = 0` yields zero results. -/
theorem per_page_min_and_low_n_witness :
    lookupP (searchParams argsZero) "per_page" =
      some (.pint (min argsZero.n 100)) ∧
    (([] : List Json)).length = 0 :=
  ⟨(per_page_min_and_low_n argsZero 200 dataEmpty [] oracleT [] rfl rfl).1,
   (per_page_min_and_low_n argsZero 200 dataEmpty [] oracleT [] rfl rfl).2.1
     rfl⟩

end Discogs

namespace Discogs

/-! ## Query-parameter lemmas -/

/-- Collapsing the or-else pattern on an option. -/
theorem opt_match_none (o : Option PVal) :
    (match o with | some v => some v | none => none) = o := by
  cases o <;> rfl

/-- Lookup distributes over appended parameter segments. -/
theorem lookupP_append (xs ys : List (String × PVal)) (k : String) :
    lookupP (xs ++ ys) k =
      (match lookupP xs k with
       | some v => some v
       | none => lookupP ys k) := by
  induction xs with
  | nil => rfl
  | cons p ps ih =>
    obtain ⟨k', v⟩ := p
    by_cases h : k' = k
    · simp [lookupP, h]
    · simp [lookupP, h, ih]

/-- A filter segment answers a lookup of its own key with exactly the
truthy value. -/
theorem lookupP_strFilter_self (k : String) (v : Option String) :
    lookupP (strFilter k v) k = filterVal v := by
  cases v with
  | none => rfl
  | some s =>
    by_cases h : s = "" <;> simp [strFilter, filterVal, lookupP, h]

/-- A filter segment never answers a lookup of a different key. -/
theorem lookupP_strFilter_ne (k k' : String) (v : Option String)
    (h : k' ≠ k) : lookupP (strFilter k v) k' = none := by
  cases v with
  | none => rfl
  | some s =>
    by_cases he : s = ""
    · simp [strFilter, he, lookupP]
    · simp [strFilter, he, lookupP]
      exact fun hk => absurd hk.symm h

/-- Everything in a filter segment carries that filter's key. -/
theorem mem_strFilter_key {kv : String × PVal} {k : String}
    {v : Option String} (h : kv ∈ strFilter k v) : kv.1 = k := by
  cases v with
  | none => simp [strFilter] at h
  | some s =>
    by_cases he : s = ""
    · simp [strFilter, he] at h
    · simp [strFilter, he] at h
      rw [h]

end Discogs

namespace Discogs

/-- C7 counterexample: the claim says a non-null filter is always
forwarded, but `if artist:` drops the non-null empty string — with
`artist = Some ""` the outbound mapping has no `artist` key at all. -/
theorem params_empty_filter_cex :
    lookupP (searchParams argsFull) "artist" = none ∧
    argsFull.artist = some "" :=
  ⟨rfl, rfl⟩

/-- C7 (amended): the outbound mapping always carries `q` (the query
verbatim) and `per_page` (`min(n, 100)`); each of the five filters is
present exactly when it is truthy — non-null and non-empty — and then
carries its string verbatim; null filters and empty-string filters are
never serialized; no other keys occur. -/
theorem params_exactly_truthy_filters (a : SearchArgs) :
    lookupP (searchParams a) "q" = some (.pstr a.query) ∧
    lookupP (searchParams a) "per_page" = some (.pint (min a.n 100)) ∧
    lookupP (searchParams a) "type" = filterVal a.type ∧
    lookupP (searchParams a) "artist" = filterVal a.artist ∧
    lookupP (searchParams a) "genre" = filterVal a.genre ∧
    lookupP (searchParams a) "year" = filterVal a.year ∧
    lookupP (searchParams a) "format" = filterVal a.format ∧
    ∀ kv ∈ searchParams a,
      kv.1 ∈ (["q", "per_page", "type", "artist", "genre", "year",
        "format"] : List String) := by
  refine ⟨rfl, rfl, ?_, ?_, ?_, ?_, ?_, ?_⟩
  · simp [searchParams, lookupP_append, lookupP_strFilter_self,
      lookupP_strFilter_ne, lookupP, opt_match_none]
  · simp [searchParams, lookupP_append, lookupP_strFilter_self,
      lookupP_strFilter_ne, lookupP, opt_match_none]
  · simp [searchParams, lookupP_append, lookupP_strFilter_self,
      lookupP_strFilter_ne, lookupP, opt_match_none]
  · simp [searchParams, lookupP_append, lookupP_strFilter_self,
      lookupP_strFilter_ne, lookupP, opt_match_none]
  · simp [searchParams, lookupP_append, lookupP_strFilter_self,
      lookupP_strFilter_ne, lookupP, opt_match_none]
  · intro kv hkv
    unfold searchParams at hkv
    rcases List.mem_append.mp hkv with hkv | h5
    · rcases List.mem_append.mp hkv with hkv | h4
      · rcases List.mem_append.mp hkv with hkv | h3
        · rcases List.mem_append.mp hkv with hkv | h2
          · rcases List.mem_append.mp hkv with hb | h1
            · rcases List.mem_cons.mp hb with hb | hb
              · rw [hb]; simp
              · rcases List.mem_cons.mp hb with hb | hb
                · rw [hb]; simp
                · simp at hb
            · rw [mem_strFilter_key h1]; simp
          · rw [mem_strFilter_key h2]; simp
        · rw [mem_strFilter_key h3]; simp
      · rw [mem_strFilter_key h4]; simp
    · rw [mem_strFilter_key h5]; simp

/-- Witness for C7's amended theorem at concrete arguments. -/
theorem params_exactly_truthy_filters_witness :
    lookupP (searchParams argsFull) "type" = filterVal (some "release") ∧
    ("q" : String) ∈ (["q", "per_page", "type", "artist", "genre", "year",
      "format"] : List String) :=
  ⟨(params_exactly_truthy_filters argsFull).2.2.1,
   (params_exactly_truthy_filters argsFull).2.2.2.2.2.2.2
     ("q", .pstr "beatles") (by decide)⟩

end Discogs

namespace Discogs

/-- C9: omitted upstream fields default instead of raising.  (1) A
payload without `community` yields the all-null stats dict from the
stats-fetch reshape, unconditionally.  (2) A release payload omitting all
four iterated/nested fields reshapes successfully — whatever else it
contains — with empty artists/labels/tracklist and an all-null community.
(3) A present `community` object omitting `rating` yields null rating and
ratings_count.  (4) An item omitting `thumb` reshapes to a null thumb.
(5)-(7) The fully-empty payloads reshape to all-null outputs without
error in all three reshapes. -/
theorem omitted_fields_default :
    (∀ fs : List (String × Json), lookupJ fs "community" = none →
      fetch_release_stats_body (.obj fs) = .ok nullStats) ∧
    (∀ fs : List (String × Json),
      lookupJ fs "artists" = none → lookupJ fs "labels" = none →
      lookupJ fs "tracklist" = none → lookupJ fs "community" = none →
      ∃ r, get_release_body (.obj fs) = .ok r ∧
        lookupK r "artists" = some (.arr []) ∧
        lookupK r "labels" = some (.arr []) ∧
        lookupK r "tracklist" = some (.arr []) ∧
        lookupK r "community" = some allNullCommunity) ∧
    (∀ (fs cfs : List (String × Json)) (r : Json),
      lookupJ fs "community" = some (.obj cfs) →
      lookupJ cfs "rating" = none →
      get_release_body (.obj fs) = .ok r →
      ∃ w hv, lookupK r "community" =
        some (.obj [("want", w), ("have", hv), ("rating", .null),
          ("ratings_count", .null)])) ∧
    (∀ (fs : List (String × Json)) (stats r : Json),
      lookupJ fs "thumb" = none →
      reshapeSearchItem (.obj fs) stats = .ok r →
      lookupK r "thumb" = some .null) ∧
    get_release_body (.obj []) = .ok emptyRelease ∧
    reshapeSearchItem (.obj []) nullStats = .ok blankItemOut ∧
    reshapeTrack (.obj []) = .ok trackNull := by
  refine ⟨?_, ?_, ?_, ?_, rfl, rfl, rfl⟩
  · intro fs h
    unfold fetch_release_stats_body
    simp [pyGet, eb, h, lookupJ, nullStats]
  · intro fs h1 h2 h3 h4
    have hbody : get_release_body (.obj fs) = .ok (.obj [
        ("title", (lookupJ fs "title").getD .null),
        ("artists", .arr []),
        ("year", (lookupJ fs "year").getD .null),
        ("formats", (lookupJ fs "formats").getD .null),
        ("labels", .arr []),
        ("genres", (lookupJ fs "genres").getD .null),
        ("styles", (lookupJ fs "styles").getD .null),
        ("country", (lookupJ fs "country").getD .null),
        ("tracklist", .arr []),
        ("community", allNullCommunity),
        ("url", (lookupJ fs "uri").getD .null)]) := by
      unfold get_release_body
      simp [pyGet, eb, h1, h2, h3, h4, pyIter, mapE, lookupJ,
        allNullCommunity]
    refine ⟨_, hbody, ?_, ?_, ?_, ?_⟩ <;> simp [lookupK, lookupJ]
  · intro fs cfs r hc hr h
    unfold get_release_body at h
    obtain ⟨t, ht, h⟩ := eb_ok h
    obtain ⟨araw, haraw, h⟩ := eb_ok h
    obtain ⟨alist, halist, h⟩ := eb_ok h
    obtain ⟨arts, harts, h⟩ := eb_ok h
    obtain ⟨yr, hyr, h⟩ := eb_ok h
    obtain ⟨fmts, hfmts, h⟩ := eb_ok h
    obtain ⟨lraw, hlraw, h⟩ := eb_ok h
    obtain ⟨llist, hllist, h⟩ := eb_ok h
    obtain ⟨lbls, hlbls, h⟩ := eb_ok h
    obtain ⟨gnr, hgnr, h⟩ := eb_ok h
    obtain ⟨stl, hstl, h⟩ := eb_ok h
    obtain ⟨ctry, hctry, h⟩ := eb_ok h
    obtain ⟨traw, htraw, h⟩ := eb_ok h
    obtain ⟨tlist, htlist, h⟩ := eb_ok h
    obtain ⟨trks, htrks, h⟩ := eb_ok h
    obtain ⟨comm, hcomm2, h⟩ := eb_ok h
    obtain ⟨w, hw, h⟩ := eb_ok h
    obtain ⟨hv, hhv, h⟩ := eb_ok h
    obtain ⟨ro, hro, h⟩ := eb_ok h
    obtain ⟨rt, hrt, h⟩ := eb_ok h
    obtain ⟨rc, hrc, h⟩ := eb_ok h
    obtain ⟨u, hu, h⟩ := eb_ok h
    simp only [pyGet, hc, Option.getD_some] at hcomm2
    injection hcomm2 with hcomm3
    subst hcomm3
    simp only [pyGet, hr, Option.getD_none] at hro
    injection hro with hro2
    subst hro2
    simp only [pyGet, lookupJ, Option.getD_none] at hrt hrc
    injection hrt with hrt2
    injection hrc with hrc2
    subst hrt2
    subst hrc2
    cases h
    refine ⟨w, hv, ?_⟩
    simp [lookupK, lookupJ]
  · intro fs stats r h hr
    unfold reshapeSearchItem at hr
    obtain ⟨a1, h1, hr⟩ := eb_ok hr
    obtain ⟨a2, h2, hr⟩ := eb_ok hr
    obtain ⟨a3, h3, hr⟩ := eb_ok hr
    obtain ⟨a4, h4, hr⟩ := eb_ok hr
    obtain ⟨a5, h5, hr⟩ := eb_ok hr
    obtain ⟨a6, h6, hr⟩ := eb_ok hr
    obtain ⟨a7, h7, hr⟩ := eb_ok hr
    obtain ⟨a8, h8, hr⟩ := eb_ok hr
    obtain ⟨a9, h9, hr⟩ := eb_ok hr
    obtain ⟨a10, h10, hr⟩ := eb_ok hr
    obtain ⟨a11, h11, hr⟩ := eb_ok hr
    obtain ⟨a12, h12, hr⟩ := eb_ok hr
    simp only [pyGet, h, Option.getD_none] at h9
    injection h9 with h9e
    subst h9e
    cases hr
    simp [lookupK, lookupJ]

/-- Witness for C9 at the empty payload. -/
theorem omitted_fields_default_witness :
    fetch_release_stats_body (.obj []) = .ok nullStats :=
  omitted_fields_default.1 [] rfl

end Discogs
